import Mathlib

/-!
Verification of the connector Docker image builder
(`src/connector_docker_builder.py`, class `ConnectorDockerBuilder` and `main`).

The Python program is shallowly embedded as follows.

* Optional-string/optional-list values model Python values subject to
  truthiness tests (`None` and `""` / `[]` are falsy).
* `Config` models the YAML configuration dictionary; its fields are the keys
  the program reads via `self.config.get(...)` (lines 53-69), plus the
  credential keys a config file may contain (the program never reads those).
* `Env` models exactly the environment variables the program reads via
  `os.getenv` (lines 53, 60, 61): `DOCKER_HUB_ORG`, `DOCKER_HUB_USERNAME`,
  `DOCKER_HUB_PASSWORD`.  No other setting has an environment source.
* `Params` models the explicit constructor parameters of
  `ConnectorDockerBuilder.__init__` (lines 12-23); `base_path` and
  `config_file` are handled separately by `initBuilder`.
* `loadConfig` embeds `_load_config` (lines 103-121).  Crucially,
  `_setup_logging` runs only at line 73, after `_load_config` is called at
  line 50, so `self.logger` does not exist yet inside `_load_config`; the
  `loggerReady` flag records whether the attribute lookup `self.logger`
  succeeds (it raises `AttributeError` when the attribute is absent).
* The filesystem seen by one run is a list of `DirEntry` values: the direct
  children of the base path in `os.listdir` order, each knowing whether it is
  a directory and whether a filesystem entry named `Dockerfile` (of any kind:
  regular file, directory, or other) exists directly inside it; the latter
  models the `os.path.exists` check on line 150.
* The external `subprocess.run` of `docker buildx build` (line 217) is an
  opaque capability `BuildCap` mapping the argument list to either a raised
  exception or a return code.  `buildMultiarchTr` embeds
  `_build_and_push_multiarch` (lines 181-229) and additionally returns the
  trace of subprocess invocations it performs, so that absence of side
  effects is expressible.
* `buildAndPushImages` embeds `build_and_push_images` (lines 152-179) and
  `runMain` / `mainExit` embed the exit-code logic of `main` (lines 252-291).
-/

/-- Python truthiness of an optional string: `None` and `""` are falsy
(used by the `or` chains on lines 53-61 and the `if self.docker_hub_org`
tests on lines 170-172 and 209). -/
def truthyStr : Option String → Bool
  | none => false
  | some s => !(s == "")

/-- Python `a or b` for optional strings: `a` when truthy, else `b`. -/
def pyOr (a b : Option String) : Option String :=
  if truthyStr a then a else b

/-- Python truthiness of an optional list: `None` and `[]` are falsy. -/
def truthyList (a : Option (List String)) : Bool :=
  match a with
  | none => false
  | some l => !(l.isEmpty)

/-- The YAML configuration dictionary.  A field is `none` when the key is
absent from the file.  `username` and `password` are keys a config file may
contain; the program never reads them (lines 60-61 consult only the explicit
parameter and the environment). -/
structure Config where
  docker_hub_org : Option String := none
  tag : Option String := none
  platforms : Option (List String) := none
  ignore_list : Option (List String) := none
  username : Option String := none
  password : Option String := none
deriving Repr, DecidableEq

/-- The environment variables the program reads (lines 53, 60, 61). -/
structure Env where
  DOCKER_HUB_ORG : Option String := none
  DOCKER_HUB_USERNAME : Option String := none
  DOCKER_HUB_PASSWORD : Option String := none
deriving Repr, DecidableEq

/-- Explicit parameters of `ConnectorDockerBuilder.__init__` (lines 12-23),
except `base_path` and `config_file`, which `initBuilder` takes separately. -/
structure Params where
  docker_hub_org : Option String := none
  tag : Option String := none
  dry_run : Bool := false
  skip_build : Bool := false
  skip_push : Bool := false
  ignore_list : Option (List String) := none
  username : Option String := none
  password : Option String := none
  platforms : Option (List String) := none
deriving Repr, DecidableEq

/-- The resolved builder attributes (`self.docker_hub_org`, `self.tag`, ...)
after `__init__` lines 53-70.  The Python `set` for the ignore list is
modelled as a list queried only through membership. -/
structure Settings where
  docker_hub_org : Option String
  tag : String
  dry_run : Bool
  skip_build : Bool
  skip_push : Bool
  username : Option String
  password : Option String
  platforms : List String
  ignore_list : List String
deriving Repr, DecidableEq

/-- `default_platforms` from line 64. -/
def default_platforms : List String := ["linux/amd64", "linux/arm64"]

/-- `default_ignore` from line 68. -/
def default_ignore : List String := [".git", ".github", "__pycache__", "venv", "env"]

/-- Attribute resolution of `__init__` lines 53-70:
`self.docker_hub_org = docker_hub_org or self.config.get('docker_hub_org') or os.getenv('DOCKER_HUB_ORG')`,
`self.tag = tag or self.config.get('tag', 'latest')`,
`self.username = username or os.getenv('DOCKER_HUB_USERNAME')`,
`self.password = password or os.getenv('DOCKER_HUB_PASSWORD')`,
`self.platforms = platforms or self.config.get('platforms', default_platforms)`,
`self.ignore_list = set(default_ignore + (ignore_list or self.config.get('ignore_list', [])))`. -/
def resolveSettings (p : Params) (config : Config) (env : Env) : Settings :=
  { docker_hub_org := pyOr p.docker_hub_org (pyOr config.docker_hub_org env.DOCKER_HUB_ORG)
  , tag := (pyOr p.tag (some (config.tag.getD "latest"))).getD "latest"
  , dry_run := p.dry_run
  , skip_build := p.skip_build
  , skip_push := p.skip_push
  , username := pyOr p.username env.DOCKER_HUB_USERNAME
  , password := pyOr p.password env.DOCKER_HUB_PASSWORD
  , platforms := if truthyList p.platforms then p.platforms.getD [] else config.platforms.getD default_platforms
  , ignore_list := default_ignore ++ (if truthyList p.ignore_list then p.ignore_list.getD [] else config.ignore_list.getD []) }

/-- What `yaml.safe_load` returned for an existing, well-formed config file:
either a falsy value (`None` for an empty file or explicit null, an empty
mapping, ...), which line 115 (` ... or {}`) replaces by the empty dict, or a
mapping. -/
inductive ParsedYaml
  | falsy
  | dict (c : Config)
deriving Repr, DecidableEq

/-- State of the file at a supplied config path, as seen by `_load_config`:
`open` raises `FileNotFoundError` (line 116), `yaml.safe_load` raises
`YAMLError` (line 119), or parsing succeeds (line 115). -/
inductive ConfigFileState
  | missing
  | malformed
  | ok (v : ParsedYaml)
deriving Repr, DecidableEq

/-- Fatal conditions during construction: the `ValueError` of line 47, a
Python `AttributeError` (an attribute referenced before it exists), and the
`sys.exit(1)` of line 121. -/
inductive InitError
  | invalidBasePath
  | attributeError (attr : String)
  | systemExit (code : Nat)
deriving Repr, DecidableEq

/-- `_load_config` (lines 103-121).  The `except FileNotFoundError` handler
(lines 116-118) evaluates `self.logger.warning(...)` before returning `{}`,
and the `except yaml.YAMLError` handler (lines 119-121) evaluates
`self.logger.error(...)` before `sys.exit(1)`; when the `logger` attribute
does not exist yet (`loggerReady = false`, the actual situation during
`__init__`, where `_setup_logging` runs only at line 73), that attribute
lookup raises `AttributeError` out of the handler. -/
def loadConfig (st : ConfigFileState) (loggerReady : Bool) : Except InitError Config :=
  match st with
  | ConfigFileState.ok ParsedYaml.falsy => Except.ok {}
  | ConfigFileState.ok (ParsedYaml.dict c) => Except.ok c
  | ConfigFileState.missing =>
      if loggerReady then Except.ok {} else Except.error (InitError.attributeError "logger")
  | ConfigFileState.malformed =>
      if loggerReady then Except.error (InitError.systemExit 1)
      else Except.error (InitError.attributeError "logger")

/-- `__init__` (lines 39-76): validate the base path (line 46), load the
config if a (truthy) config path was supplied (line 50, `cfg = none` models
no config file argument), then resolve all attributes (lines 53-70).
`_load_config` is called with the logger not yet set up. -/
def initBuilder (p : Params) (baseIsDir : Bool) (cfg : Option ConfigFileState) (env : Env) :
    Except InitError Settings :=
  if baseIsDir = false then Except.error InitError.invalidBasePath
  else
    match (match cfg with
           | none => Except.ok ({} : Config)
           | some st => loadConfig st false) with
    | Except.error e => Except.error e
    | Except.ok config => Except.ok (resolveSettings p config env)

/-- Kind of the filesystem entry named `Dockerfile` inside a connector
directory, when one exists.  `os.path.exists` (line 150) is true for each
kind. -/
inductive EntryKind
  | file
  | dir
  | other
deriving Repr, DecidableEq

/-- One direct child of the base path, as returned by `os.listdir`
(line 161): its name, whether it is a directory (line 140), and the
`Dockerfile` entry directly inside it, if any (lines 149-150). -/
structure DirEntry where
  name : String
  isDir : Bool
  dockerfileEntry : Option EntryKind
deriving Repr, DecidableEq

/-- `_validate_connector` (lines 132-150): a directory, whose base name is
not in the ignore set, containing a filesystem entry named `Dockerfile`
(`os.path.exists`, regardless of the kind of entry). -/
def validateConnector (s : Settings) (e : DirEntry) : Bool :=
  e.isDir && !(s.ignore_list.contains e.name) && e.dockerfileEntry.isSome

/-- Image-name computation of lines 170-172:
`f"{org}/{folder}:{tag}"` when the org is truthy, else `f"{folder}:{tag}"`. -/
def mkImageName (s : Settings) (folder : String) : String :=
  if truthyStr s.docker_hub_org then (s.docker_hub_org.getD "") ++ "/" ++ folder ++ ":" ++ s.tag
  else folder ++ ":" ++ s.tag

/-- Outcome of the `subprocess.run` invocation (line 217): either something
in the `try` block raised an exception, or the subprocess completed with a
return code. -/
inductive CapResult
  | raised
  | returncode (rc : Int)
deriving Repr, DecidableEq

/-- The opaque external build capability: the behaviour of
`subprocess.run(build_args, ...)` as a function of the argument list. -/
abbrev BuildCap := List String → CapResult

/-- The `build_args` list of lines 204-213: the buildx command, with
`'--push' if not self.skip_push and self.docker_hub_org else ''`, then the
filter `[arg for arg in build_args if arg]` removing empty strings. -/
def buildArgs (s : Settings) (contextPath imageName : String) : List String :=
  (["docker", "buildx", "build",
    "--platform", String.intercalate "," s.platforms,
    "-t", imageName, contextPath,
    if !s.skip_push && truthyStr s.docker_hub_org then "--push" else ""]).filter
    (fun a => !(a == ""))

/-- `_build_and_push_multiarch` (lines 181-229), instrumented with the list
of subprocess invocations it performs.  `skip_build` returns success before
the `try` (lines 189-191); `dry_run` returns success inside the `try` without
invoking anything (lines 194-196); otherwise the subprocess runs once: return
code 0 is success (lines 219-221), a nonzero return code is failure
(lines 222-225), and any raised exception is caught and turned into failure
(lines 227-229). -/
def buildMultiarchTr (s : Settings) (cap : BuildCap) (contextPath imageName : String) :
    Bool × List (List String) :=
  if s.skip_build then (true, [])
  else if s.dry_run then (true, [])
  else
    match cap (buildArgs s contextPath imageName) with
    | CapResult.raised => (false, [buildArgs s contextPath imageName])
    | CapResult.returncode rc => (rc == 0, [buildArgs s contextPath imageName])

/-- The success flag of `_build_and_push_multiarch`. -/
def buildMultiarch (s : Settings) (cap : BuildCap) (contextPath imageName : String) : Bool :=
  (buildMultiarchTr s cap contextPath imageName).1

/-- `build_and_push_images` (lines 152-179), instrumented with the combined
subprocess trace: iterate over the listing, skip entries failing
`_validate_connector`, compute the single image name from `self.tag`
(lines 169-172), build it, and append `(folder, success)`. -/
def buildAndPushImagesTr (basePath : String) (s : Settings) (entries : List DirEntry)
    (cap : BuildCap) : List (String × Bool) × List (List String) :=
  match entries with
  | [] => ([], [])
  | e :: rest =>
    let tail := buildAndPushImagesTr basePath s rest cap
    if validateConnector s e then
      let one := buildMultiarchTr s cap (basePath ++ "/" ++ e.name) (mkImageName s e.name)
      ((e.name, one.1) :: tail.1, one.2 ++ tail.2)
    else tail

/-- The results list of `build_and_push_images`. -/
def buildAndPushImages (basePath : String) (s : Settings) (entries : List DirEntry)
    (cap : BuildCap) : List (String × Bool) :=
  (buildAndPushImagesTr basePath s entries cap).1

/-- The exit-code computation of `main` (lines 272-287):
`sys.exit(0 if successful_connectors == total_connectors else 1)`. -/
def exitCode (results : List (String × Bool)) : Nat :=
  if (results.filter (fun r => r.2)).length = results.length then 0 else 1

/-- The `try`/`except` of `main` (lines 252-291): a fatal construction error
exits with 1 (line 291); otherwise the summary exit code applies. -/
def mainExit (outcome : Except InitError (List (String × Bool))) : Nat :=
  match outcome with
  | Except.error _ => 1
  | Except.ok results => exitCode results

/-- The whole `main` pipeline: construct the builder, run
`build_and_push_images` over the listing, and exit. -/
def runMain (p : Params) (baseIsDir : Bool) (cfg : Option ConfigFileState) (env : Env)
    (basePath : String) (entries : List DirEntry) (cap : BuildCap) : Nat :=
  mainExit (match initBuilder p baseIsDir cfg env with
    | Except.error e => Except.error e
    | Except.ok s => Except.ok (buildAndPushImages basePath s entries cap))

/-- The names in the results list are exactly the names of the entries that
pass `_validate_connector`, in listing order, for every build capability. -/
lemma run_map_fst (basePath : String) (s : Settings) (entries : List DirEntry) (cap : BuildCap) :
    (buildAndPushImagesTr basePath s entries cap).1.map Prod.fst
      = (entries.filter (fun e => validateConnector s e)).map DirEntry.name := by
  induction entries with
  | nil => rfl
  | cons e rest ih =>
    by_cases h : validateConnector s e
    · simp [buildAndPushImagesTr, h, ih]
    · simp [buildAndPushImagesTr, h, ih]

/-- A capability that always reports return code 0 (an always-successful
external build). -/
def capOK : BuildCap := fun _ => CapResult.returncode 0

/-- Constructor parameters selecting organization "acme" and the non-default
tag "v2". -/
def pV2 : Params := { docker_hub_org := some "acme", tag := some "v2" }

/-- The settings resolved from `pV2` with no config file and an empty
environment. -/
def sV2 : Settings := resolveSettings pV2 {} {}

/-- A valid connector directory named "conn" containing a regular-file
`Dockerfile`. -/
def entryConn : DirEntry := { name := "conn", isDir := true, dockerfileEntry := some EntryKind.file }

/-- C1 (counterexample): with non-default tag "v2" and a connector that
builds successfully, the run performs exactly one build invocation, tagged
`acme/conn:v2` only; no invocation references `acme/conn:latest`, so no
second build/push under the default tag happens and the recorded outcome
reflects a single attempted image reference, contrary to the claim. -/
theorem C1_counterexample :
    buildAndPushImagesTr "/base" sV2 [entryConn] capOK
      = ([("conn", true)],
         [["docker", "buildx", "build", "--platform", "linux/amd64,linux/arm64",
           "-t", "acme/conn:v2", "/base/conn", "--push"]]) ∧
    ∀ args ∈ (buildAndPushImagesTr "/base" sV2 [entryConn] capOK).2,
      "acme/conn:latest" ∉ args := by decide

/-- C1 (amended): for every connector, `_build_and_push_multiarch` performs
at most one external build invocation, and when it performs one it is exactly
the single buildx command for the image named with the configured tag; there
is never a secondary default-tag invocation. -/
theorem C1_single_tag_fanout (s : Settings) (cap : BuildCap) (basePath folder : String) :
    (buildMultiarchTr s cap (basePath ++ "/" ++ folder) (mkImageName s folder)).2 = [] ∨
    (buildMultiarchTr s cap (basePath ++ "/" ++ folder) (mkImageName s folder)).2
      = [buildArgs s (basePath ++ "/" ++ folder) (mkImageName s folder)] := by
  unfold buildMultiarchTr
  split
  · exact Or.inl rfl
  · split
    · exact Or.inl rfl
    · rcases hc : cap (buildArgs s (basePath ++ "/" ++ folder) (mkImageName s folder)) with _ | rc <;>
        simp [hc]

/-- C4 (confirmed): for every run and every valid connector whose external
build capability errors — by raising an exception or by completing with a
nonzero return code — the results list still pairs every valid connector
with an outcome, in listing order, and that connector's recorded outcome is
failure — the error is contained at the per-connector boundary and all other
connectors are still attempted. -/
theorem C4_error_isolation (basePath : String) (s : Settings) (entries : List DirEntry)
    (cap : BuildCap) (e : DirEntry) (he : e ∈ entries)
    (hv : validateConnector s e = true)
    (hfail : cap (buildArgs s (basePath ++ "/" ++ e.name) (mkImageName s e.name)) = CapResult.raised ∨
      ∃ rc, cap (buildArgs s (basePath ++ "/" ++ e.name) (mkImageName s e.name))
              = CapResult.returncode rc ∧ rc ≠ 0)
    (hsb : s.skip_build = false) (hdr : s.dry_run = false) :
    (buildAndPushImages basePath s entries cap).map Prod.fst
      = (entries.filter (fun x => validateConnector s x)).map DirEntry.name ∧
    (e.name, false) ∈ buildAndPushImages basePath s entries cap := by
  refine ⟨run_map_fst basePath s entries cap, ?_⟩
  induction entries with
  | nil => cases he
  | cons a rest ih =>
    rcases List.mem_cons.mp he with rfl | hmem
    · have hone : buildMultiarchTr s cap (basePath ++ "/" ++ e.name) (mkImageName s e.name)
          = (false, [buildArgs s (basePath ++ "/" ++ e.name) (mkImageName s e.name)]) := by
        rcases hfail with hraise | ⟨rc, hrc, hne⟩
        · simp [buildMultiarchTr, hsb, hdr, hraise]
        · simp [buildMultiarchTr, hsb, hdr, hrc, hne]
      simp [buildAndPushImages, buildAndPushImagesTr, hv, hone]
    · by_cases h2 : validateConnector s a
      · have htail := ih hmem
        simp only [buildAndPushImages, buildAndPushImagesTr, h2, if_pos] at htail ⊢
        exact List.mem_cons_of_mem _ htail
      · have htail := ih hmem
        simp only [buildAndPushImages, buildAndPushImagesTr, h2] at htail ⊢
        simpa using htail

/-- Connector directory "a" with a Dockerfile. -/
def entryA : DirEntry := { name := "a", isDir := true, dockerfileEntry := some EntryKind.file }

/-- Connector directory "b" with a Dockerfile. -/
def entryB : DirEntry := { name := "b", isDir := true, dockerfileEntry := some EntryKind.file }

/-- Connector directory "c" with a Dockerfile. -/
def entryC : DirEntry := { name := "c", isDir := true, dockerfileEntry := some EntryKind.file }

/-- Settings for organization "acme" with the default tag. -/
def sLatest : Settings := resolveSettings { docker_hub_org := some "acme" } {} {}

/-- A capability that completes with nonzero return code 1 exactly for
connector "b" of organization "acme" and succeeds for all other
invocations. -/
def capFailB : BuildCap := fun args =>
  if args.contains "acme/b:latest" then CapResult.returncode 1 else CapResult.returncode 0

/-- C4 witness: three connectors where the second's build completes with a
nonzero return code; the run still records one outcome per connector and
marks "b" failed. -/
theorem C4_error_isolation_witness :
    (buildAndPushImages "/base" sLatest [entryA, entryB, entryC] capFailB).map Prod.fst
      = ([entryA, entryB, entryC].filter (fun x => validateConnector sLatest x)).map DirEntry.name ∧
    ("b", false) ∈ buildAndPushImages "/base" sLatest [entryA, entryB, entryC] capFailB :=
  C4_error_isolation "/base" sLatest [entryA, entryB, entryC] capFailB entryB
    (by decide) (by decide) (Or.inr ⟨1, by decide, by decide⟩) (by decide) (by decide)

/-- C7 (confirmed): the run produces exactly one outcome per direct child of
the root that is a directory, is not named in the exclude set, and contains a
Dockerfile entry, in directory-listing order. -/
theorem C7_discovery_order (basePath : String) (s : Settings) (entries : List DirEntry)
    (cap : BuildCap) :
    (buildAndPushImages basePath s entries cap).map Prod.fst
      = (entries.filter (fun e =>
           e.isDir && !(s.ignore_list.contains e.name) && e.dockerfileEntry.isSome)).map DirEntry.name := by
  simpa [buildAndPushImages, validateConnector] using run_map_fst basePath s entries cap

/-- C2 (code bug): with a valid base path and a supplied config path whose
file does not exist, construction aborts with an AttributeError — the
`except FileNotFoundError` handler references `self.logger` before
`_setup_logging` has run — instead of succeeding with an empty
configuration.  Had the logger attribute existed, the handler would have
returned the empty configuration, which is the evident intent. -/
theorem C2_missing_config_aborts :
    initBuilder {} true (some ConfigFileState.missing) {}
      = Except.error (InitError.attributeError "logger") ∧
    loadConfig ConfigFileState.missing true = Except.ok ({} : Config) :=
  ⟨rfl, rfl⟩

/-- C3 (counterexample): a config file supplying a username, with no explicit
username parameter and no DOCKER_HUB_USERNAME in the environment, resolves to
no username at all — the config-file layer is skipped for credentials, so the
claimed precedence chain (parameter, else config, else environment, else
default) does not hold for every setting. -/
theorem C3_counterexample :
    (resolveSettings {} { username := some "cfguser" } {}).username = none ∧
    (resolveSettings {} { username := some "cfguser" } {}).username ≠ some "cfguser" := by
  decide

/-- C3 (amended): the registry namespace follows parameter, else config file,
else environment; the tag, platforms and exclude entries follow parameter,
else config file, else built-in default, with no environment layer; the
credentials (username and password alike) follow parameter, else environment,
with the config-file layer ignored (resolution is independent of config-file
credentials); the built-in exclude entries are always included. -/
theorem C3_resolution_layers (p : Params) (c : Config) (env : Env) :
    (resolveSettings p c env).docker_hub_org
      = (if truthyStr p.docker_hub_org then p.docker_hub_org
         else if truthyStr c.docker_hub_org then c.docker_hub_org
         else env.DOCKER_HUB_ORG) ∧
    (resolveSettings p c env).tag
      = (if truthyStr p.tag then p.tag.getD "" else c.tag.getD "latest") ∧
    (resolveSettings p c env).username
      = (if truthyStr p.username then p.username else env.DOCKER_HUB_USERNAME) ∧
    (resolveSettings p c env).username
      = (resolveSettings p { c with username := none, password := none } env).username ∧
    (resolveSettings p c env).password
      = (if truthyStr p.password then p.password else env.DOCKER_HUB_PASSWORD) ∧
    (resolveSettings p c env).password
      = (resolveSettings p { c with username := none, password := none } env).password ∧
    (resolveSettings p c env).platforms
      = (if truthyList p.platforms then p.platforms.getD []
         else c.platforms.getD default_platforms) ∧
    (resolveSettings p c env).ignore_list
      = default_ignore ++ (if truthyList p.ignore_list then p.ignore_list.getD []
         else c.ignore_list.getD []) := by
  refine ⟨rfl, ?_, rfl, rfl, rfl, rfl, rfl, rfl⟩
  rcases hp : p.tag with _ | t
  · simp [resolveSettings, pyOr, truthyStr, hp]
  · by_cases ht : t = "" <;> simp [resolveSettings, pyOr, truthyStr, hp, ht]

/-- A Boolean filter keeps the whole list exactly when every element passes. -/
lemma length_filter_eq_iff {α : Type} (p : α → Bool) (l : List α) :
    (l.filter p).length = l.length ↔ ∀ a ∈ l, p a = true := by
  constructor
  · intro h
    have heq : l.filter p = l := (List.filter_sublist l).eq_of_length h
    intro a ha
    exact List.of_mem_filter (heq.symm ▸ ha)
  · intro h
    rw [List.filter_eq_self.mpr h]

/-- The summary exit code is 0 exactly when every recorded outcome is a
success. -/
lemma exitCode_zero_iff (rs : List (String × Bool)) :
    exitCode rs = 0 ↔ ∀ r ∈ rs, r.2 = true := by
  unfold exitCode
  by_cases h : (rs.filter (fun r => r.2)).length = rs.length
  · simp only [h, if_pos]
    simpa using (length_filter_eq_iff (fun r => r.2) rs).mp h
  · simp only [h, if_neg, not_false_eq_true]
    constructor
    · intro h0; cases h0
    · intro hall
      exact absurd ((length_filter_eq_iff (fun r => r.2) rs).mpr hall) h

/-- The summary exit code is always 0 or 1. -/
lemma exitCode_zero_or_one (rs : List (String × Bool)) :
    exitCode rs = 0 ∨ exitCode rs = 1 := by
  unfold exitCode
  split
  · exact Or.inl rfl
  · exact Or.inr rfl

/-- C5 (confirmed): the process exit code is always 0 or 1; it is 0 exactly
when construction succeeded and every discovered connector's outcome is a
success (including the zero-connector case); and any fatal construction
error yields exit code 1. -/
theorem C5_exit_status (p : Params) (baseIsDir : Bool) (cfg : Option ConfigFileState)
    (env : Env) (basePath : String) (entries : List DirEntry) (cap : BuildCap) :
    (runMain p baseIsDir cfg env basePath entries cap = 0 ∨
     runMain p baseIsDir cfg env basePath entries cap = 1) ∧
    (runMain p baseIsDir cfg env basePath entries cap = 0 ↔
      ∃ s, initBuilder p baseIsDir cfg env = Except.ok s ∧
        ∀ r ∈ buildAndPushImages basePath s entries cap, r.2 = true) ∧
    (∀ err, initBuilder p baseIsDir cfg env = Except.error err →
      runMain p baseIsDir cfg env basePath entries cap = 1) := by
  rcases hinit : initBuilder p baseIsDir cfg env with e | s
  · refine ⟨Or.inr (by simp [runMain, hinit, mainExit]), ?_, fun err _ => by simp [runMain, hinit, mainExit]⟩
    constructor
    · intro h0
      simp [runMain, hinit, mainExit] at h0
    · rintro ⟨s, hs, -⟩
      cases hs
  · refine ⟨?_, ?_, ?_⟩
    · simpa [runMain, hinit, mainExit] using
        exitCode_zero_or_one (buildAndPushImages basePath s entries cap)
    · simp only [runMain, hinit, mainExit]
      rw [exitCode_zero_iff]
      constructor
      · intro hall
        exact ⟨s, rfl, hall⟩
      · rintro ⟨s2, hs2, hall⟩
        injection hs2 with hss
        rw [hss]
        exact hall
    · intro err herr
      cases herr

/-- C5 witness: with a valid base path, no config file, and an empty listing,
the process exits with code 0 (zero connectors count as all-success). -/
theorem C5_exit_status_witness :
    runMain {} true none {} "/base" [] capOK = 0 :=
  ((C5_exit_status {} true none {} "/base" [] capOK).2.1).mpr
    ⟨resolveSettings {} {} {}, rfl, by decide⟩

/-- C6 (confirmed): when no registry namespace is configured (the attribute
is None or empty, i.e. not truthy), the buildx invocation never carries the
push flag, whatever the skip-push flag says, and the connector outcome is
still success when the external build returns code 0.  The two inequality
hypotheses only rule out an unrelated argument being the literal string of
the push flag. -/
theorem C6_no_push_without_namespace (s : Settings) (cap : BuildCap) (ctx img : String)
    (h : truthyStr s.docker_hub_org = false)
    (hp : String.intercalate "," s.platforms ≠ "--push")
    (hc : ctx ≠ "--push") (hi : img ≠ "--push") :
    "--push" ∉ buildArgs s ctx img ∧
    (cap (buildArgs s ctx img) = CapResult.returncode 0 →
      buildMultiarch s cap ctx img = true) := by
  constructor
  · intro hmem
    unfold buildArgs at hmem
    rw [h, Bool.and_false] at hmem
    have hin := (List.mem_filter.mp hmem).1
    simp only [List.mem_cons, List.not_mem_nil, or_false] at hin
    repeat' rcases hin with h1 | hin
    all_goals first
      | exact absurd h1 (by decide)
      | exact hp h1.symm
      | exact hi h1.symm
      | exact hc h1.symm
      | exact absurd hin (by decide)
  · intro hcap
    unfold buildMultiarch buildMultiarchTr
    split
    · rfl
    · split
      · rfl
      · rw [hcap]
        rfl

/-- Settings resolved with no parameters, no config file, and an empty
environment: in particular no registry namespace. -/
def sNoOrg : Settings := resolveSettings {} {} {}

/-- C6 witness: with no namespace configured and skip-push left false, the
concrete buildx invocation for connector "conn" carries no push flag and a
zero return code yields a success outcome. -/
theorem C6_no_push_without_namespace_witness :
    "--push" ∉ buildArgs sNoOrg "/base/conn" "conn:latest" ∧
    (capOK (buildArgs sNoOrg "/base/conn" "conn:latest") = CapResult.returncode 0 →
      buildMultiarch sNoOrg capOK "/base/conn" "conn:latest" = true) :=
  C6_no_push_without_namespace sNoOrg capOK "/base/conn" "conn:latest"
    (by decide) (by decide) (by decide) (by decide)

/-- Under dry-run, one build step is simulated: success, no invocation. -/
lemma dryRun_buildMultiarchTr (s : Settings) (cap : BuildCap) (ctx img : String)
    (h : s.dry_run = true) :
    buildMultiarchTr s cap ctx img = (true, []) := by
  unfold buildMultiarchTr
  split
  · rfl
  · simp [h]

/-- C8 (confirmed): with dry-run enabled, the run is independent of the
external build capability (so two runs over the same listing produce
identical results, and no external invocation distinguishes them), the
subprocess trace is empty (no build or push side effect), and every recorded
outcome is a success. -/
theorem C8_dry_run_idempotent (basePath : String) (s : Settings) (entries : List DirEntry)
    (cap1 cap2 : BuildCap) (h : s.dry_run = true) :
    buildAndPushImagesTr basePath s entries cap1 = buildAndPushImagesTr basePath s entries cap2 ∧
    (buildAndPushImagesTr basePath s entries cap1).2 = [] ∧
    (∀ r ∈ (buildAndPushImagesTr basePath s entries cap1).1, r.2 = true) := by
  induction entries with
  | nil => exact ⟨rfl, rfl, by intro r hr; cases hr⟩
  | cons e rest ih =>
    obtain ⟨ih1, ih2, ih3⟩ := ih
    by_cases hv : validateConnector s e
    · refine ⟨?_, ?_, ?_⟩
      · simp [buildAndPushImagesTr, hv, dryRun_buildMultiarchTr s cap1 _ _ h,
              dryRun_buildMultiarchTr s cap2 _ _ h, ih1]
      · simp [buildAndPushImagesTr, hv, dryRun_buildMultiarchTr s cap1 _ _ h, ih2]
      · intro r hr
        simp only [buildAndPushImagesTr, hv, if_pos,
          dryRun_buildMultiarchTr s cap1 _ _ h, List.mem_cons] at hr
        rcases hr with hr | hr
        · rw [hr]
        · exact ih3 r hr
    · exact ⟨by simp [buildAndPushImagesTr, hv, ih1],
             by simpa [buildAndPushImagesTr, hv] using ih2,
             by simpa [buildAndPushImagesTr, hv] using ih3⟩

/-- Settings resolved with dry-run requested. -/
def sDry : Settings := resolveSettings { dry_run := true } {} {}

/-- A capability that raises on every invocation. -/
def capRaiseAll : BuildCap := fun _ => CapResult.raised

/-- C8 witness: a dry run over one connector gives the same results under an
always-succeeding and an always-raising capability, performs no invocation,
and records only successes. -/
theorem C8_dry_run_idempotent_witness :
    buildAndPushImagesTr "/base" sDry [entryConn] capOK
      = buildAndPushImagesTr "/base" sDry [entryConn] capRaiseAll ∧
    (buildAndPushImagesTr "/base" sDry [entryConn] capOK).2 = [] ∧
    (∀ r ∈ (buildAndPushImagesTr "/base" sDry [entryConn] capOK).1, r.2 = true) :=
  C8_dry_run_idempotent "/base" sDry [entryConn] capOK capRaiseAll (by decide)

/-- C9 (confirmed): an existing config file whose parsed content is falsy
(empty file, YAML null, empty mapping, ...) loads as the empty configuration;
construction succeeds and resolves every setting exactly as with no config
file at all, so each setting falls back to its remaining layers. -/
theorem C9_falsy_config_empty (p : Params) (env : Env) :
    loadConfig (ConfigFileState.ok ParsedYaml.falsy) false = Except.ok ({} : Config) ∧
    initBuilder p true (some (ConfigFileState.ok ParsedYaml.falsy)) env
      = Except.ok (resolveSettings p {} env) ∧
    initBuilder p true (some (ConfigFileState.ok ParsedYaml.falsy)) env
      = initBuilder p true none env :=
  ⟨rfl, rfl, rfl⟩

/-- C10 (confirmed): connector validation tests the build descriptor only
through existence of a filesystem entry named Dockerfile: the verdict is
independent of the entry's kind, and in particular a subdirectory named
Dockerfile makes a non-excluded directory valid. -/
theorem C10_dockerfile_existence_only (s : Settings) (nm : String) (d : Bool)
    (k k2 : EntryKind)
    (hdir : d = true) (hign : s.ignore_list.contains nm = false) :
    validateConnector s { name := nm, isDir := d, dockerfileEntry := some k }
      = validateConnector s { name := nm, isDir := d, dockerfileEntry := some k2 } ∧
    validateConnector s { name := nm, isDir := d, dockerfileEntry := some EntryKind.dir } = true := by
  constructor
  · rfl
  · simp only [validateConnector, hdir, hign]
    decide

/-- C10 witness: for the default settings, the verdict on connector "conn" is
the same for a regular-file Dockerfile and any other entry kind, and a
directory named Dockerfile validates the connector. -/
theorem C10_dockerfile_existence_only_witness :
    (validateConnector sNoOrg { name := "conn", isDir := true, dockerfileEntry := some EntryKind.file }
      = validateConnector sNoOrg { name := "conn", isDir := true, dockerfileEntry := some EntryKind.other }) ∧
    validateConnector sNoOrg { name := "conn", isDir := true, dockerfileEntry := some EntryKind.dir } = true :=
  C10_dockerfile_existence_only sNoOrg "conn" true EntryKind.file EntryKind.other rfl (by decide)
